import Mathlib

set_option autoImplicit false
set_option maxRecDepth 8000

/-!
Shallow embedding of meson's external-dependency resolution engine
(`mesonbuild/dependencies.py`).  External effects (process execution,
filesystem queries, environment variables) are represented by an oracle
structure `World`; the control flow of the Python code is translated
definition by definition.  Python's tri-state `None` / `False` / `str`
values for the pkg-config binary are modelled by `PkgbinVal`, and Python
exceptions by the `PyExn` type threaded through `Except`.
-/

/-- Python exception values raised by the dependency code.
`dependencyException` embeds `DependencyException` (a subclass of
`MesonException`), `mesonException` a plain `MesonException`; `ioError`
stands for `FileNotFoundError`/`PermissionError` from process launch or
`open`, `indexError` and `typeError` for the corresponding built-ins. -/
inductive PyExn where
  | dependencyException (msg : String)
  | mesonException (msg : String)
  | ioError
  | indexError
  | typeError
  deriving DecidableEq, Repr

/-- A Python value that is expected to be a `bool` but (being a kwarg) may be
anything; `other t` records only the truthiness `t` of a non-bool value.
Used for the `required` and `static` keywords, whose `isinstance` checks the
source performs explicitly. -/
inductive PyBoolish where
  | bool (b : Bool)
  | other (truthy : Bool)
  deriving DecidableEq, Repr

/-- Python truthiness of a `PyBoolish` value. -/
def PyBoolish.truthy : PyBoolish → Bool
  | .bool b => b
  | .other t => t

/-- The `version` keyword: `version_reqs = kwargs.get('version', None)` may be
a string, a list of strings, or (erroneously) anything else. -/
inductive VersionArg where
  | vstr (s : String)
  | vlist (l : List String)
  | vother
  deriving DecidableEq, Repr

/-- The keyword arguments consumed by `Dependency.__init__` and
`PkgConfigDependency.__init__`.  Keys the source never reads are irrelevant
to the embedding. -/
structure Kwargs where
  method : String := "auto"
  required : PyBoolish := .bool true
  static : PyBoolish := .bool false
  native : Option Bool := none
  version : Option VersionArg := none
  silent : Bool := false

/-- The Python value stored in `PkgConfigDependency.class_pkgbin` and
`self.pkgbin`: `None` (never searched), `False` (searched, not found), or the
path string of the pkg-config binary. -/
inductive PkgbinVal where
  | pynone
  | pyfalse
  | str (s : String)
  deriving DecidableEq, Repr

/-- Python truthiness of a pkgbin value (`None` and `False` are falsy, a
string is truthy iff nonempty). -/
def PkgbinVal.truthy : PkgbinVal → Bool
  | .str s => s ≠ ""
  | _ => false

/-- The underlying string of a pkgbin value (meaningful only when truthy). -/
def PkgbinVal.getStr : PkgbinVal → String
  | .str s => s
  | _ => ""

/-- Oracle for every effect the dependency code performs against the outside
world.  `popen` models `Popen_safe` (`none` = `FileNotFoundError` /
`PermissionError` on launch, otherwise exit code and raw stdout); `which`
models `shutil.which`; `programSearch` models the result list
`ExternalProgram._search` computes from PATH and the filesystem;
`laFileLines` models `open(la_file)` (`none` = the file cannot be opened);
`listdir`, `isDir`, `pathExists`, `isAbs` model the corresponding `os` /
`os.path` queries.  `versionCompareMany` models
`mesonlib.version_compare_many`, which lives outside this file's source; only
its result triple `(ok, not_found, found)` is consumed here, matching the
call site. -/
structure World where
  isOsx : Bool
  isCrossBuild : Bool
  crossPkgconfig : Option String
  programSearch : String → List (Option String)
  pkgConfigEnvVar : Option String
  popen : List String → Option (Int × String)
  which : String → Option String
  isAbs : String → Bool
  pathExists : String → Bool
  laFileLines : String → Option (List String)
  listdir : String → List String
  isDir : String → Bool
  versionCompareMany : String → List String → Bool × List String × List String

/-- Index of the last occurrence of `c` in a character list, if any. -/
def lastIndexOfChar (c : Char) : List Char → Option Nat
  | [] => none
  | x :: rest =>
    match lastIndexOfChar c rest with
    | some i => some (i + 1)
    | none => if x = c then some 0 else none

/-- Split a character list at every character satisfying `p`, keeping empty
pieces — the semantics of Python `str.split(sep)` for a one-character
separator (with `p` the equality test) and the building block of `str.split()`
without arguments. -/
def splitChar (p : Char → Bool) : List Char → List (List Char)
  | [] => [[]]
  | c :: rest =>
    let r := splitChar p rest
    if p c then [] :: r
    else (c :: r.headD []) :: r.tail

/-- Python `s.split(c)` for a single-character separator: every occurrence
splits, empty pieces are kept. -/
def pySplitOnChar (c : Char) (s : String) : List String :=
  (splitChar (fun x => x == c) s.toList).map String.mk

/-- Python `str.split()` with no argument: split on runs of whitespace,
dropping empty pieces. -/
def pySplit (s : String) : List String :=
  ((splitChar Char.isWhitespace s.toList).map String.mk).filter (fun t => t ≠ "")

/-- Python `str.strip()`: drop leading and trailing whitespace. -/
def pyStrip (s : String) : String :=
  String.mk (((s.toList.dropWhile Char.isWhitespace).reverse.dropWhile Char.isWhitespace).reverse)

/-- Python `s[1:-1]`: drop the first and the last character. -/
def pySlice1m1 (s : String) : String :=
  String.mk ((s.toList.drop 1).dropLast)

/-- Python `s.lower()` (ASCII case folding suffices here). -/
def strLower (s : String) : String :=
  String.mk (s.toList.map Char.toLower)

/-- Does `s` end with `suffix`?  (Python `str.endswith`.) -/
def strEndsWith (s suffix : String) : Bool :=
  suffix.toList.isSuffixOf s.toList

/-- Embeds `posixpath.dirname`: the text before the final slash, with trailing
slashes stripped unless the result is all slashes. -/
def pathDirname (p : String) : String :=
  match lastIndexOfChar '/' p.toList with
  | none => ""
  | some i =>
    let head := p.toList.take (i + 1)
    if head.all (fun ch => ch == '/') then String.mk head
    else String.mk ((head.reverse.dropWhile (fun ch => ch == '/')).reverse)

/-- Embeds `posixpath.basename`: the text after the final slash. -/
def pathBasename (p : String) : String :=
  match lastIndexOfChar '/' p.toList with
  | none => p
  | some i => String.mk (p.toList.drop (i + 1))

/-- Two-argument `posixpath.join`. -/
def pathJoin (a b : String) : String :=
  if (b.toList.headD ' ') == '/' then b
  else if a = "" then a ++ b
  else if (a.toList.getLastD ' ') == '/' then a ++ b
  else a ++ "/" ++ b

/-- Python `d.split(".")[0]`: the part of `d` before its first dot (all of
`d` when it has no dot). -/
def firstDotComponent (d : String) : String :=
  (pySplitOnChar '.' d).headD ""

example : pathDirname "/a/b/c.la" = "/a/b" := by decide
example : pathDirname "c.la" = "" := by decide
example : pathJoin "" "x" = "x" := by decide
example : pathJoin "/a/b" ".libs" = "/a/b/.libs" := by decide
example : pathBasename "sub/libfoo.so.1" = "libfoo.so.1" := by decide
example : pySplit "  -I/x  -ly \n" = ["-I/x", "-ly"] := by decide
example : firstDotComponent "sdl2.framework" = "sdl2" := by decide
example : strEndsWith "/opt/libfoo.la" ".la" = true := by decide
example : pySlice1m1 "'libfoo.so.1'" = "libfoo.so.1" := by decide
example : pySplitOnChar '=' "dlname='libfoo.so.1'" = ["dlname", "'libfoo.so.1'"] := by decide

/-- Result of `Dependency.__init__`'s detection-method validation: with
`method == "auto"` every declared method is enabled, with a declared method
exactly that one, and otherwise a `MesonException` is raised
(`dependencies.py` lines 41-50, with `declared` standing for the variant's
`get_methods()`). -/
def methodCheck (method : String) (declared : List String) : Except PyExn (List String) :=
  if method = "auto" then Except.ok declared
  else if method ∈ declared then Except.ok [method]
  else Except.error (PyExn.mesonException
    ("Unsupported detection method: " ++ method ++ ", allowed methods are " ++
      String.intercalate ", " ("auto" :: declared)))

/-- Embeds `PkgConfigDependency.check_pkgconfig`: take the `PKG_CONFIG` environment
override (stripped) or the default name, run `--version` (a launch failure or
nonzero exit yields `False`), and resolve a relative name through
`shutil.which` only when `which` itself can find it. -/
def check_pkgconfig (w : World) : PkgbinVal :=
  let pkgbin0 : String :=
    match w.pkgConfigEnvVar with
    | some v => pyStrip v
    | none => "pkg-config"
  let afterTry : PkgbinVal :=
    match w.popen [pkgbin0, "--version"] with
    | some (rc, _out) => if rc ≠ 0 then PkgbinVal.pyfalse else PkgbinVal.str pkgbin0
    | none => PkgbinVal.pyfalse
  match afterTry with
  | PkgbinVal.str s =>
    if s = "" then PkgbinVal.str s
    else if w.isAbs s then PkgbinVal.str s
    else
      match w.which s with
      | some t => PkgbinVal.str t
      | none => PkgbinVal.str s
  | x => x

/-- Output of resolving `self.pkgbin` in `PkgConfigDependency.__init__`
(lines 132-152): the new value of the class-level cache `class_pkgbin`, the
number of `check_pkgconfig` invocations (0 or 1), the number of writes to
`class_pkgbin`, and the resolved `self.pkgbin` or the raised exception. -/
structure ResolveOut where
  newCls : PkgbinVal
  checkCalls : Nat
  classWrites : Nat
  result : Except PyExn PkgbinVal

/-- The pkgbin-resolution block of `PkgConfigDependency.__init__`: the cross
path consults the cross file and `ExternalProgram`, the native path runs
`check_pkgconfig` only when the class-level cache is still `None` and
otherwise reuses the cached value. -/
def resolvePkgbin (w : World) (cls : PkgbinVal) (wantCross reqTruthy : Bool) : ResolveOut :=
  if wantCross then
    match w.crossPkgconfig with
    | none =>
      if reqTruthy then
        ⟨cls, 0, 0, Except.error (PyExn.dependencyException "Pkg-config binary missing from cross file")⟩
      else ⟨cls, 0, 0, Except.ok PkgbinVal.pynone⟩
    | some pkgname =>
      match (w.programSearch pkgname).headD none with
      | some c => ⟨PkgbinVal.str c, 0, 1, Except.ok (PkgbinVal.str c)⟩
      | none => ⟨cls, 0, 0, Except.ok PkgbinVal.pynone⟩
  else if cls = PkgbinVal.pynone then
    let pb := check_pkgconfig w
    ⟨pb, 1, 1, Except.ok pb⟩
  else ⟨cls, 0, 0, Except.ok cls⟩

/-- Embeds `PkgConfigDependency.extract_field`: scan the `.la` file's lines for
`fieldname=...`, returning the first value with its surrounding quote
characters sliced off (`arr[1][1:-1]`); a matching line with no `=` would
raise `IndexError` in Python. -/
def extract_field : List String → String → Except PyExn (Option String)
  | [], _ => Except.ok none
  | line :: rest, fieldname =>
    let arr := pySplitOnChar '=' (pyStrip line)
    if arr.headD "" = fieldname then
      match arr with
      | _ :: v :: _ => Except.ok (some (pySlice1m1 v))
      | _ => Except.error PyExn.indexError
    else extract_field rest fieldname

/-- Embeds `PkgConfigDependency.extract_libtool_shlib`: read `dlname` out of the
`.la` file; on OSX combine its basename with the `libdir` field, elsewhere
return just the basename. -/
def extract_libtool_shlib (w : World) (la_file : String) : Except PyExn (Option String) :=
  match w.laFileLines la_file with
  | none => Except.error PyExn.ioError
  | some lines =>
    match extract_field lines "dlname" with
    | Except.error e => Except.error e
    | Except.ok none => Except.ok none
    | Except.ok (some dlname) =>
      if w.isOsx then
        let dlbasename := pathBasename dlname
        match extract_field lines "libdir" with
        | Except.error e => Except.error e
        | Except.ok none => Except.ok (some dlbasename)
        | Except.ok (some libdir) => Except.ok (some (pathJoin libdir dlbasename))
      else Except.ok (some (pathBasename dlname))

/-- The per-token body of the loop in `PkgConfigDependency._set_libs`: a
token ending in `.la` is resolved through the libtool file to a real shared
object (directory of the token first, then its `.libs` subdirectory), raising
when neither candidate exists; other tokens pass through.  The second
component reports whether `self.is_libtool` was set by this token.  A `None`
shlib would make `os.path.join` raise `TypeError` in Python. -/
def processLibToken (w : World) (lib : String) : Except PyExn (String × Bool) :=
  if strEndsWith lib ".la" then
    match extract_libtool_shlib w lib with
    | Except.error e => Except.error e
    | Except.ok none => Except.error PyExn.typeError
    | Except.ok (some sl) =>
      let d := pathDirname lib
      let shared1 := pathJoin d sl
      let shared2 := if w.pathExists shared1 = false then pathJoin (pathJoin d ".libs") sl else shared1
      if w.pathExists shared2 = false then
        Except.error (PyExn.dependencyException
          ("Got a libtools specific \"" ++ lib ++
            "\" dependenciesbut we could not compute the actual sharedlibrary path"))
      else Except.ok (shared2, true)
  else Except.ok (lib, false)

/-- The whole token loop of `_set_libs`: tokens are processed left to right,
the first failing token aborts the construction. -/
def processLibs (w : World) : List String → Except PyExn (List String × Bool)
  | [] => Except.ok ([], false)
  | lib :: rest =>
    match processLibToken w lib with
    | Except.error e => Except.error e
    | Except.ok (tok, isLt) =>
      match processLibs w rest with
      | Except.error e => Except.error e
      | Except.ok (toks, anyLt) => Except.ok (tok :: toks, isLt || anyLt)

/-- Embeds `PkgConfigDependency._set_cargs`: query `--cflags`; a nonzero exit is
always a `DependencyException`, success tokenizes the stripped output.
`s` is the pkg-config binary prepended by `_call_pkgbin`. -/
def set_cargs (w : World) (s name : String) : Except PyExn (List String) :=
  match w.popen [s, "--cflags", name] with
  | none => Except.error PyExn.ioError
  | some (rc, out) =>
    if rc ≠ 0 then
      Except.error (PyExn.dependencyException
        ("Could not generate cargs for " ++ name ++ ":\n\n" ++ pyStrip out))
    else Except.ok (pySplit (pyStrip out))

/-- Embeds `PkgConfigDependency._set_libs`: query `--libs` (plus `--static` when
requested); a nonzero exit is always a `DependencyException`, success runs
the libtool-resolution loop over the tokens. -/
def set_libs (w : World) (s name : String) (staticB : Bool) : Except PyExn (List String × Bool) :=
  let libcmd := [name, "--libs"] ++ (if staticB then ["--static"] else [])
  match w.popen (s :: libcmd) with
  | none => Except.error PyExn.ioError
  | some (rc, out) =>
    if rc ≠ 0 then
      Except.error (PyExn.dependencyException
        ("Could not generate libs for " ++ name ++ ":\n\n" ++ pyStrip out))
    else processLibs w (pySplit (pyStrip out))

/-- Outcome of the version-requirement block of `PkgConfigDependency.__init__`
(lines 173-195): proceed to flag fetching, or a version mismatch with the
unmet/met constraint lists. -/
inductive VersionOutcome where
  | proceed
  | notFound (nf fnd : List String)

/-- The version-requirement block: `None` means found; a non-string/list
value raises; a string is normalized to a one-element list; the (externally
supplied) `version_compare_many` decides the rest. -/
def versionGate (w : World) (modv : String) (v : Option VersionArg) : Except PyExn VersionOutcome :=
  match v with
  | none => Except.ok VersionOutcome.proceed
  | some VersionArg.vother =>
    Except.error (PyExn.dependencyException "Version argument must be string or list.")
  | some (VersionArg.vstr s) =>
    let r := w.versionCompareMany modv [s]
    if r.1 then Except.ok VersionOutcome.proceed else Except.ok (VersionOutcome.notFound r.2.1 r.2.2)
  | some (VersionArg.vlist l) =>
    let r := w.versionCompareMany modv l
    if r.1 then Except.ok VersionOutcome.proceed else Except.ok (VersionOutcome.notFound r.2.1 r.2.2)

/-- The fields of a constructed `PkgConfigDependency` that the claims
observe. -/
structure PCDep where
  name : String
  is_found : Bool
  pkgbin : PkgbinVal
  modversion : String := "none"
  cargs : List String := []
  libs : List String := []
  is_libtool : Bool := false
  deriving DecidableEq, Repr

/-- The tail of `PkgConfigDependency.__init__` after `self.pkgbin` has been
resolved (lines 154-204): a falsy pkgbin is fatal only when required; the
`--modversion` query decides found/not-found (fatal only when required); a
version mismatch is fatal only when required; and `_set_cargs`/`_set_libs`
exceptions always propagate. -/
def pkgConfigBody (w : World) (name : String) (kw : Kwargs) (staticB req wantCross : Bool)
    (pb : PkgbinVal) : Except PyExn PCDep :=
  if pb.truthy = false then
    if req then Except.error (PyExn.dependencyException "Pkg-config not found.")
    else Except.ok { name := name, is_found := false, pkgbin := pb }
  else
    let s := pb.getStr
    match w.popen [s, "--modversion", name] with
    | none => Except.error PyExn.ioError
    | some (rc, out) =>
      let modv := pyStrip out
      if rc ≠ 0 then
        if req then
          Except.error (PyExn.dependencyException
            ((if wantCross then "Cross" else "Native") ++ " dependency '" ++ name ++ "' not found"))
        else Except.ok { name := name, is_found := false, pkgbin := pb, modversion := modv }
      else
        match versionGate w modv kw.version with
        | Except.error e => Except.error e
        | Except.ok (VersionOutcome.notFound nf _fnd) =>
          if req then
            Except.error (PyExn.dependencyException
              ("Invalid version of dependency, need '" ++ name ++ "' '" ++
                String.intercalate ", " nf ++ "' found '" ++ modv ++ "'."))
          else Except.ok { name := name, is_found := false, pkgbin := pb, modversion := modv }
        | Except.ok VersionOutcome.proceed =>
          match set_cargs w s name with
          | Except.error e => Except.error e
          | Except.ok cargs =>
            match set_libs w s name staticB with
            | Except.error e => Except.error e
            | Except.ok (libs, isLt) =>
              Except.ok { name := name, is_found := true, pkgbin := pb, modversion := modv,
                          cargs := cargs, libs := libs, is_libtool := isLt }

/-- The `want_cross` computation of `PkgConfigDependency.__init__`
(lines 123-126). -/
def pcWantCross (w : World) (kw : Kwargs) : Bool :=
  if kw.native.isSome && w.isCrossBuild then !(kw.native.getD false) else w.isCrossBuild

/-- Output of a full `PkgConfigDependency.__init__` run: the new class-level
cache, probe-count statistics, and the constructed object or the raised
exception. -/
structure InitOut where
  newCls : PkgbinVal
  checkCalls : Nat
  classWrites : Nat
  result : Except PyExn PCDep

/-- Embeds `PkgConfigDependency.__init__` end to end: method validation
(`get_methods()` is `['pkgconfig']`), the `static` isinstance check, pkgbin
resolution against the class-level cache, then the query sequence of
`pkgConfigBody`. -/
def pkgConfigInit (w : World) (cls : PkgbinVal) (name : String) (kw : Kwargs) : InitOut :=
  match methodCheck kw.method ["pkgconfig"] with
  | Except.error e => ⟨cls, 0, 0, Except.error e⟩
  | Except.ok _ =>
    match kw.static with
    | PyBoolish.other _ =>
      ⟨cls, 0, 0, Except.error (PyExn.dependencyException "Static keyword must be boolean")⟩
    | PyBoolish.bool staticB =>
      let r := resolvePkgbin w cls (pcWantCross w kw) kw.required.truthy
      match r.result with
      | Except.error e => ⟨r.newCls, r.checkCalls, r.classWrites, Except.error e⟩
      | Except.ok pb =>
        ⟨r.newCls, r.checkCalls, r.classWrites,
          pkgConfigBody w name kw staticB kw.required.truthy (pcWantCross w kw) pb⟩

/-- The fields of an `ExtraFrameworkDependency` the claims observe:
`self.path` (the framework root that matched; left unset — here `""` — when
nothing matched) and `self.name` (the matched entry, `None` when absent). -/
structure EFDep where
  path : String
  name : Option String
  deriving DecidableEq, Repr

/-- Embeds `ExtraFrameworkDependency.found`: the stored name is not `None`. -/
def efFound (d : EFDep) : Bool :=
  d.name.isSome

/-- Embeds `ExtraFrameworkDependency.get_compile_args`. -/
def efGetCompileArgs (d : EFDep) : List String :=
  match d.name with
  | some n => ["-I" ++ pathJoin (pathJoin d.path n) "Headers"]
  | none => []

/-- Embeds `ExtraFrameworkDependency.get_link_args`. -/
def efGetLinkArgs (d : EFDep) : List String :=
  match d.name with
  | some n => ["-F" ++ d.path, "-framework", firstDotComponent n]
  | none => []

/-- The inner loop of `ExtraFrameworkDependency.detect` over one directory
listing: skip entries whose part before the first dot does not equal the
lowered name, skip non-directories, return the first survivor. -/
def detectScan (w : World) (lname p : String) : List String → Option (String × String)
  | [] => none
  | d :: rest =>
    if lname ≠ strLower (firstDotComponent d) then detectScan w lname p rest
    else if w.isDir (pathJoin p d) = false then detectScan w lname p rest
    else some (p, d)

/-- The outer loop of `ExtraFrameworkDependency.detect` over the candidate
root directories. -/
def detectPaths (w : World) (lname : String) : List String → Option (String × String)
  | [] => none
  | p :: rest =>
    match detectScan w lname p (w.listdir p) with
    | some r => some r
    | none => detectPaths w lname rest

/-- Embeds `ExtraFrameworkDependency.detect`: lower the name, choose the default
root `/Library/Frameworks` when no explicit path is given, and scan. -/
def frameworkDetect (w : World) (name : String) (path : Option String) : Option (String × String) :=
  let lname := strLower name
  let paths := match path with
    | none => ["/Library/Frameworks"]
    | some p => [p]
  detectPaths w lname paths

/-- Embeds `ExtraFrameworkDependency.__init__`: `Dependency.__init__` first (the
base class declares only `auto`), then `detect`; the `required` argument is
never read by the constructor. -/
def extraFrameworkInit (w : World) (name : String) (_required : Bool) (path : Option String)
    (kw : Kwargs) : Except PyExn EFDep :=
  match methodCheck kw.method ["auto"] with
  | Except.error e => Except.error e
  | Except.ok _ =>
    match frameworkDetect w name path with
    | some (p, d) => Except.ok ⟨p, some d⟩
    | none => Except.ok ⟨"", none⟩

/-- Python `str(exc)` for the captured pkg-config exception (`str(None)` is
`"None"` when no exception was captured). -/
def pyExnStr : Option PyExn → String
  | some (PyExn.dependencyException m) => m
  | some (PyExn.mesonException m) => m
  | some PyExn.ioError => "FileNotFoundError"
  | some PyExn.indexError => "IndexError"
  | some PyExn.typeError => "TypeError"
  | none => "None"

/-- The result value of `find_external_dependency`: a dependency of a
registered kind (abstracted to its `found()` flag), a `PkgConfigDependency`,
an `ExtraFrameworkDependency`, or Python `None` (the final `return pkgdep`
when the constructor raised — unreachable, kept for faithfulness). -/
inductive DepResult where
  | registered (found : Bool)
  | pkgconfig (d : PCDep)
  | framework (d : EFDep)
  | pynone
  deriving Repr

/-- Computes `found()` of a `find_external_dependency` result. -/
def DepResult.depFound : DepResult → Bool
  | .registered b => b
  | .pkgconfig d => d.is_found
  | .framework d => d.name.isSome
  | .pynone => false

/-- Lines 1591-1601 of `find_external_dependency`: the fallback after the
pkg-config attempt, with `pkg_exc` the captured exception and `pkgdep` the
constructed (not-found) dependency if construction succeeded.  On OSX an
extra-framework scan runs and its result is returned (fatal when required
and not found, with the captured exception's text in the message); elsewhere
a captured exception is re-raised unconditionally, and otherwise the
not-found pkg-config dependency is returned. -/
def fallbackAfterPkg (w : World) (cls : PkgbinVal) (name : String) (kw : Kwargs) (required : Bool)
    (pkg_exc : Option PyExn) (pkgdep : Option PCDep) : PkgbinVal × Except PyExn DepResult :=
  if w.isOsx then
    match extraFrameworkInit w name required none kw with
    | Except.error e => (cls, Except.error e)
    | Except.ok fwdep =>
      if required && !(efFound fwdep) then
        (cls, Except.error (PyExn.dependencyException
          ("Dependency '" ++ name ++ "' not found, tried Extra Frameworks and Pkg-Config:\n\n" ++
            pyExnStr pkg_exc)))
      else (cls, Except.ok (DepResult.framework fwdep))
  else
    match pkg_exc with
    | some e => (cls, Except.error e)
    | none =>
      match pkgdep with
      | some d => (cls, Except.ok (DepResult.pkgconfig d))
      | none => (cls, Except.ok DepResult.pynone)

/-- Embeds `find_external_dependency` (lines 1573-1601): validate `required`,
dispatch registered kinds through the `packages` table (abstracted to a
lookup returning each kind's constructor, itself abstracted to the `found()`
flag it produces or the exception it raises), and otherwise run the generic
pkg-config-then-framework resolution, threading the class-level pkgbin
cache. -/
def find_external_dependency (w : World)
    (packages : String → Option (World → Kwargs → Except PyExn Bool))
    (cls : PkgbinVal) (name : String) (kw : Kwargs) : PkgbinVal × Except PyExn DepResult :=
  match kw.required with
  | PyBoolish.other _ =>
    (cls, Except.error (PyExn.dependencyException "Keyword \"required\" must be a boolean."))
  | PyBoolish.bool required =>
    match packages (strLower name) with
    | some ctor =>
      match ctor w kw with
      | Except.error e => (cls, Except.error e)
      | Except.ok fnd =>
        if required && !fnd then
          (cls, Except.error (PyExn.dependencyException ("Dependency \"" ++ name ++ "\" not found")))
        else (cls, Except.ok (DepResult.registered fnd))
    | none =>
      let o := pkgConfigInit w cls name kw
      match o.result with
      | Except.ok dep =>
        if dep.is_found then (o.newCls, Except.ok (DepResult.pkgconfig dep))
        else fallbackAfterPkg w o.newCls name kw required none (some dep)
      | Except.error e => fallbackAfterPkg w o.newCls name kw required (some e) none

/-- The `modules` keyword of `get_dep_identifier`: a single string or a
list. -/
inductive ModulesArg where
  | mstr (s : String)
  | mlist (l : List String)
  deriving DecidableEq, Repr

/-- The keyword arguments `get_dep_identifier` reads, plus `rest`
representing all other keys of the Python kwargs dict (never consulted). -/
structure DepIdKwargs where
  modules : Option ModulesArg := none
  main : Bool := false
  static : Bool := false
  fallback : Option (String × String) := none
  rest : List (String × String) := []
  deriving DecidableEq, Repr

/-- One element of the identifier tuple (Python mixes strings and bools). -/
inductive IdElem where
  | s (v : String)
  | b (v : Bool)
  deriving DecidableEq, Repr

/-- Embeds `get_dep_identifier` (lines 1556-1571): name, then the normalized module
list, then the `main` and `static` flags tagged by their key, then the
fallback pair when present. -/
def get_dep_identifier (name : String) (kw : DepIdKwargs) : List IdElem :=
  let modlist : List String :=
    match kw.modules with
    | none => []
    | some (ModulesArg.mstr s) => [s]
    | some (ModulesArg.mlist l) => l
  ((name :: modlist).map IdElem.s) ++
    [IdElem.s "main", IdElem.b kw.main, IdElem.s "static", IdElem.b kw.static] ++
    (match kw.fallback with
     | some (f0, f1) => [IdElem.s "fallback", IdElem.s f0, IdElem.s f1]
     | none => [])

/-- A heap of list cells, for stating the copy semantics of
`ExternalProgram.get_command` (`return self.command[:]`): Python lists are
mutable references, so the stored command list and the returned list are
distinct cells. -/
structure Store where
  cells : List (List (Option String))
  deriving Repr

/-- Read a cell of the store. -/
def readCell (st : Store) (r : Nat) : List (Option String) :=
  st.cells.getD r []

/-- Overwrite a cell of the store (any in-place mutation of the list the
caller received). -/
def writeCell (st : Store) (r : Nat) (v : List (Option String)) : Store :=
  ⟨st.cells.set r v⟩

/-- Allocate a fresh cell holding `v`, returning its reference. -/
def allocCell (st : Store) (v : List (Option String)) : Store × Nat :=
  (⟨st.cells ++ [v]⟩, st.cells.length)

/-- An `ExternalProgram` object: its stored `self.command` is a reference
into the store. -/
structure EPRef where
  name : String
  commandRef : Nat
  deriving Repr

/-- Embeds `ExternalProgram.get_command`: `self.command[:]` allocates a fresh list
with the same contents and returns a reference to the copy. -/
def ep_get_command (st : Store) (p : EPRef) : Store × Nat :=
  allocCell st (readCell st p.commandRef)

/-- Embeds `ExternalProgram.found`: `self.command[0] is not None` (the stored
command list is never empty in the source; an empty cell reads as not
found). -/
def ep_found (st : Store) (p : EPRef) : Bool :=
  match (readCell st p.commandRef).headD none with
  | some _ => true
  | none => false

/-- Embeds `ExternalProgram.get_path`: the last command element when found, else
`None`. -/
def ep_get_path (st : Store) (p : EPRef) : Option String :=
  if ep_found st p then (readCell st p.commandRef).getLastD none
  else none

/-- Modelled from the spec: the claim's "filename stripped of its suffix" —
the filename with its final dot-suffix removed (`os.path.splitext`-style).
Stated spec-side for claim C6, to be compared with the source's
`firstDotComponent` (truncation at the first dot). -/
def specStripSuffix (s : String) : String :=
  match lastIndexOfChar '.' s.toList with
  | none => s
  | some i => String.mk (s.toList.take i)

/-- Claim C8: constructing any dependency variant with a method keyword that
is neither `auto` nor in the variant's declared method set raises a
`MesonException`; `auto` enables every declared method, and a declared method
enables exactly that one. -/
theorem method_validation (method : String) (declared : List String) :
    (method = "auto" → methodCheck method declared = Except.ok declared) ∧
    (method ≠ "auto" → method ∈ declared → methodCheck method declared = Except.ok [method]) ∧
    (method ≠ "auto" → method ∉ declared →
      ∃ msg, methodCheck method declared = Except.error (PyExn.mesonException msg)) := by
  refine ⟨fun h => ?_, fun h1 h2 => ?_, fun h1 h2 => ?_⟩
  · simp [methodCheck, h]
  · simp [methodCheck, h1, h2]
  · exact ⟨"Unsupported detection method: " ++ method ++ ", allowed methods are " ++
      String.intercalate ", " ("auto" :: declared), by simp [methodCheck, h1, h2]⟩

/-- Witness for C8 at a concrete rejected method. -/
theorem method_validation_witness :
    ("qmake" ≠ "auto" ∧ "qmake" ∉ ["pkgconfig"]) ∧
    (∃ msg, methodCheck "qmake" ["pkgconfig"] = Except.error (PyExn.mesonException msg)) :=
  ⟨⟨by decide, by decide⟩,
    (method_validation "qmake" ["pkgconfig"]).2.2 (by decide) (by decide)⟩

/-- Claim C9: `get_dep_identifier` depends only on
(name, modules, main, static, fallback); a `modules` value given as a single
string produces the same key as the one-element list; and module lists with
the same elements in a different order produce different keys. -/
theorem dep_identifier_properties :
    (∀ (name : String) (kw₁ kw₂ : DepIdKwargs), kw₁.modules = kw₂.modules →
      kw₁.main = kw₂.main → kw₁.static = kw₂.static → kw₁.fallback = kw₂.fallback →
      get_dep_identifier name kw₁ = get_dep_identifier name kw₂) ∧
    (∀ (name s : String) (main static : Bool) (fb : Option (String × String))
      (r₁ r₂ : List (String × String)),
      get_dep_identifier name ⟨some (ModulesArg.mstr s), main, static, fb, r₁⟩ =
        get_dep_identifier name ⟨some (ModulesArg.mlist [s]), main, static, fb, r₂⟩) ∧
    (∀ (name : String) (l₁ l₂ : List String) (main static : Bool)
      (fb : Option (String × String)) (r : List (String × String)),
      l₁.Perm l₂ → l₁ ≠ l₂ →
      get_dep_identifier name ⟨some (ModulesArg.mlist l₁), main, static, fb, r⟩ ≠
        get_dep_identifier name ⟨some (ModulesArg.mlist l₂), main, static, fb, r⟩) := by
  refine ⟨?_, ?_, ?_⟩
  · intro name kw₁ kw₂ hm hmn hs hf
    cases kw₁
    cases kw₂
    simp only at hm hmn hs hf
    subst hm hmn hs hf
    rfl
  · intro name s main static fb r₁ r₂
    rfl
  · intro name l₁ l₂ main static fb r _hperm hne heq
    apply hne
    simp only [get_dep_identifier] at heq
    have h2 := List.append_cancel_right (List.append_cancel_right heq)
    have hinj : Function.Injective IdElem.s := fun a b h => by injection h
    have h3 := List.map_injective_iff.mpr hinj h2
    injection h3

/-- Witness for C9: permuted module lists at a concrete input give different
identifiers. -/
theorem dep_identifier_properties_witness :
    ((["a", "b"] : List String).Perm ["b", "a"] ∧ (["a", "b"] : List String) ≠ ["b", "a"]) ∧
    get_dep_identifier "x" ⟨some (ModulesArg.mlist ["a", "b"]), false, false, none, []⟩ ≠
      get_dep_identifier "x" ⟨some (ModulesArg.mlist ["b", "a"]), false, false, none, []⟩ :=
  ⟨⟨by decide, by decide⟩,
    dep_identifier_properties.2.2 "x" ["a", "b"] ["b", "a"] false false none []
      (by decide) (by decide)⟩

/-- Claim C10: `get_command` returns a copy of the stored command list —
the returned reference is distinct from the stored one, holds equal
contents, and overwriting it with any value leaves the stored command,
`found()` and `get_path()` unchanged. -/
theorem get_command_returns_copy (st : Store) (p : EPRef)
    (h : p.commandRef < st.cells.length) :
    (ep_get_command st p).2 ≠ p.commandRef ∧
    readCell (ep_get_command st p).1 (ep_get_command st p).2 = readCell st p.commandRef ∧
    (∀ v : List (Option String),
      readCell (writeCell (ep_get_command st p).1 (ep_get_command st p).2 v) p.commandRef =
        readCell st p.commandRef ∧
      ep_found (writeCell (ep_get_command st p).1 (ep_get_command st p).2 v) p = ep_found st p ∧
      ep_get_path (writeCell (ep_get_command st p).1 (ep_get_command st p).2 v) p =
        ep_get_path st p) := by
  have hsnd : (ep_get_command st p).2 = st.cells.length := rfl
  have hfst : (ep_get_command st p).1 = ⟨st.cells ++ [readCell st p.commandRef]⟩ := rfl
  refine ⟨?_, ?_, ?_⟩
  · rw [hsnd]
    exact fun hc => absurd hc.symm (Nat.ne_of_lt h)
  · rw [hsnd, hfst]
    simp only [readCell, List.getD_eq_getElem?_getD]
    rw [List.getElem?_concat_length]
    rfl
  · intro v
    have hread : readCell (writeCell (ep_get_command st p).1 (ep_get_command st p).2 v) p.commandRef =
        readCell st p.commandRef := by
      rw [hsnd, hfst]
      simp only [writeCell, readCell, List.getD_eq_getElem?_getD]
      rw [List.getElem?_set_ne (Nat.ne_of_gt h), List.getElem?_append_left h]
    refine ⟨hread, ?_, ?_⟩
    · simp only [ep_found, hread]
    · simp only [ep_get_path, ep_found, hread]

/-- Witness for C10 at a concrete one-cell store. -/
theorem get_command_returns_copy_witness :
    (0 < (Store.mk [[some "pkg-config"]]).cells.length) ∧
    ((ep_get_command ⟨[[some "pkg-config"]]⟩ ⟨"pkg-config", 0⟩).2 ≠ 0 ∧
      readCell (ep_get_command ⟨[[some "pkg-config"]]⟩ ⟨"pkg-config", 0⟩).1
          (ep_get_command ⟨[[some "pkg-config"]]⟩ ⟨"pkg-config", 0⟩).2 =
        readCell ⟨[[some "pkg-config"]]⟩ (EPRef.mk "pkg-config" 0).commandRef ∧
      (∀ v : List (Option String),
        readCell (writeCell (ep_get_command ⟨[[some "pkg-config"]]⟩ ⟨"pkg-config", 0⟩).1
            (ep_get_command ⟨[[some "pkg-config"]]⟩ ⟨"pkg-config", 0⟩).2 v)
            (EPRef.mk "pkg-config" 0).commandRef =
          readCell ⟨[[some "pkg-config"]]⟩ (EPRef.mk "pkg-config" 0).commandRef ∧
        ep_found (writeCell (ep_get_command ⟨[[some "pkg-config"]]⟩ ⟨"pkg-config", 0⟩).1
            (ep_get_command ⟨[[some "pkg-config"]]⟩ ⟨"pkg-config", 0⟩).2 v) ⟨"pkg-config", 0⟩ =
          ep_found ⟨[[some "pkg-config"]]⟩ ⟨"pkg-config", 0⟩ ∧
        ep_get_path (writeCell (ep_get_command ⟨[[some "pkg-config"]]⟩ ⟨"pkg-config", 0⟩).1
            (ep_get_command ⟨[[some "pkg-config"]]⟩ ⟨"pkg-config", 0⟩).2 v) ⟨"pkg-config", 0⟩ =
          ep_get_path ⟨[[some "pkg-config"]]⟩ ⟨"pkg-config", 0⟩)) :=
  ⟨by decide, get_command_returns_copy ⟨[[some "pkg-config"]]⟩ ⟨"pkg-config", 0⟩ (by decide)⟩

/-- Claim C5: a link token ending in `.la` (non-OSX) whose libtool file
declares `dlname=libfoo.so.1` and no `libdir` resolves to
`<token's directory>/libfoo.so.1` when that exists, else to
`<token's directory>/.libs/libfoo.so.1` when that exists, and otherwise the
construction raises a `DependencyException`. -/
theorem libtool_la_token_resolution (w : World) (lib : String) (lines : List String)
    (hosx : w.isOsx = false)
    (hla : strEndsWith lib ".la" = true)
    (hfile : w.laFileLines lib = some lines)
    (hdl : extract_field lines "dlname" = Except.ok (some "libfoo.so.1"))
    (_hlibdir : extract_field lines "libdir" = Except.ok none) :
    processLibToken w lib =
      (if w.pathExists (pathJoin (pathDirname lib) "libfoo.so.1") then
        Except.ok (pathJoin (pathDirname lib) "libfoo.so.1", true)
      else if w.pathExists (pathJoin (pathJoin (pathDirname lib) ".libs") "libfoo.so.1") then
        Except.ok (pathJoin (pathJoin (pathDirname lib) ".libs") "libfoo.so.1", true)
      else
        Except.error (PyExn.dependencyException
          ("Got a libtools specific \"" ++ lib ++
            "\" dependenciesbut we could not compute the actual sharedlibrary path"))) := by
  have hbase : pathBasename "libfoo.so.1" = "libfoo.so.1" := by decide
  have hshlib : extract_libtool_shlib w lib = Except.ok (some "libfoo.so.1") := by
    simp only [extract_libtool_shlib, hfile, hdl, hosx]
    simp [hbase]
  simp only [processLibToken, hla, hshlib]
  by_cases h1 : w.pathExists (pathJoin (pathDirname lib) "libfoo.so.1")
  · simp [h1]
  · by_cases h2 : w.pathExists (pathJoin (pathJoin (pathDirname lib) ".libs") "libfoo.so.1")
    · simp [h1, h2]
    · simp [h1, h2]

/-- A concrete world for the C5 witness: the libtool file exists with a
`dlname` line and only the `.libs` candidate path exists. -/
def worldC5 : World :=
  { isOsx := false, isCrossBuild := false, crossPkgconfig := none,
    programSearch := fun _ => [none], pkgConfigEnvVar := none,
    popen := fun _ => some (1, ""), which := fun _ => none,
    isAbs := fun _ => false,
    pathExists := fun p => p = "/opt/lib/.libs/libfoo.so.1",
    laFileLines := fun p => if p = "/opt/lib/libfoo.la" then some ["dlname='libfoo.so.1'"] else none,
    listdir := fun _ => [], isDir := fun _ => false,
    versionCompareMany := fun _ _ => (true, [], []) }

/-- Witness for C5: the direct candidate is absent, so the `.libs` candidate
is substituted. -/
theorem libtool_la_token_resolution_witness :
    (worldC5.isOsx = false ∧ strEndsWith "/opt/lib/libfoo.la" ".la" = true ∧
      worldC5.laFileLines "/opt/lib/libfoo.la" = some ["dlname='libfoo.so.1'"] ∧
      extract_field ["dlname='libfoo.so.1'"] "dlname" = Except.ok (some "libfoo.so.1") ∧
      extract_field ["dlname='libfoo.so.1'"] "libdir" = Except.ok none) ∧
    processLibToken worldC5 "/opt/lib/libfoo.la" =
      (if worldC5.pathExists (pathJoin (pathDirname "/opt/lib/libfoo.la") "libfoo.so.1") then
        Except.ok (pathJoin (pathDirname "/opt/lib/libfoo.la") "libfoo.so.1", true)
      else if worldC5.pathExists
          (pathJoin (pathJoin (pathDirname "/opt/lib/libfoo.la") ".libs") "libfoo.so.1") then
        Except.ok (pathJoin (pathJoin (pathDirname "/opt/lib/libfoo.la") ".libs") "libfoo.so.1", true)
      else
        Except.error (PyExn.dependencyException
          ("Got a libtools specific \"" ++ "/opt/lib/libfoo.la" ++
            "\" dependenciesbut we could not compute the actual sharedlibrary path"))) :=
  ⟨⟨rfl, by decide, rfl, rfl, rfl⟩,
    libtool_la_token_resolution worldC5 "/opt/lib/libfoo.la" ["dlname='libfoo.so.1'"]
      rfl (by decide) rfl rfl rfl⟩

/-- A concrete world for claim C6: the framework root holds one directory
entry whose name contains two dots. -/
def worldC6 : World :=
  { isOsx := true, isCrossBuild := false, crossPkgconfig := none,
    programSearch := fun _ => [none], pkgConfigEnvVar := none,
    popen := fun _ => some (1, ""), which := fun _ => none,
    isAbs := fun _ => false, pathExists := fun _ => false,
    laFileLines := fun _ => none,
    listdir := fun p => if p = "/Library/Frameworks" then ["sdl2.extra.framework"] else [],
    isDir := fun _ => true,
    versionCompareMany := fun _ _ => (true, [], []) }

/-- Counterexample to claim C6 as stated: the entry `sdl2.extra.framework`
stripped of its suffix equals the logical name `sdl2.extra`
case-insensitively and is a directory, yet the scan selects nothing, because
the source compares the part of the filename before its FIRST dot
(`d.split('.')[0]`), not the filename stripped of its suffix. -/
theorem framework_suffix_match_counterexample :
    strLower (specStripSuffix "sdl2.extra.framework") = strLower "sdl2.extra" ∧
    worldC6.listdir "/Library/Frameworks" = ["sdl2.extra.framework"] ∧
    worldC6.isDir (pathJoin "/Library/Frameworks" "sdl2.extra.framework") = true ∧
    frameworkDetect worldC6 "sdl2.extra" none = none ∧
    extraFrameworkInit worldC6 "sdl2.extra" true none {} = Except.ok ⟨"", none⟩ := by
  refine ⟨by decide, rfl, rfl, ?_, ?_⟩ <;> rfl

/-- The inner loop of `detect` selects exactly the first listing entry whose
first-dot prefix matches the lowered name and which is a directory. -/
theorem detectScan_eq_find (w : World) (lname p : String) (l : List String) :
    detectScan w lname p l =
      (l.find? (fun d => (strLower (firstDotComponent d) == lname) && w.isDir (pathJoin p d))).map
        (fun d => (p, d)) := by
  induction l with
  | nil => rfl
  | cons d rest ih =>
    by_cases h1 : lname = strLower (firstDotComponent d)
    · by_cases h2 : w.isDir (pathJoin p d)
      · simp [detectScan, List.find?, h1, h2]
      · simp only [detectScan, h1]
        simp only [ne_eq, not_true_eq_false, if_false] at *
        simp [List.find?, ← h1, h2, ih, Bool.eq_false_iff.mpr h2]
      
    · have hb : (strLower (firstDotComponent d) == lname) = false := by
        simp [Ne.symm h1]
      simp [detectScan, h1, List.find?, hb, ih]

/-- Claim C6 amended: the framework scan selects the first directory entry
whose filename truncated at its FIRST dot equals the name case-insensitively
and which is a directory; on a match the compile args reference the
`Headers` subdirectory of the matched bundle and the link args reference the
root and the entry's first-dot prefix. -/
theorem framework_scan_first_dot_match (w : World) (name root : String) :
    frameworkDetect w name (some root) =
      ((w.listdir root).find? (fun d =>
        (strLower (firstDotComponent d) == strLower name) && w.isDir (pathJoin root d))).map
        (fun d => (root, d)) ∧
    frameworkDetect w name none =
      ((w.listdir "/Library/Frameworks").find? (fun d =>
        (strLower (firstDotComponent d) == strLower name) &&
          w.isDir (pathJoin "/Library/Frameworks" d))).map
        (fun d => ("/Library/Frameworks", d)) ∧
    (∀ p n : String,
      efGetCompileArgs ⟨p, some n⟩ = ["-I" ++ pathJoin (pathJoin p n) "Headers"] ∧
      efGetLinkArgs ⟨p, some n⟩ = ["-F" ++ p, "-framework", firstDotComponent n]) := by
  refine ⟨?_, ?_, fun p n => ⟨rfl, rfl⟩⟩
  · show detectPaths w (strLower name) [root] = _
    simp only [detectPaths, detectScan_eq_find]
    cases ((w.listdir root).find? (fun d =>
      (strLower (firstDotComponent d) == strLower name) && w.isDir (pathJoin root d))) <;> rfl
  · show detectPaths w (strLower name) ["/Library/Frameworks"] = _
    simp only [detectPaths, detectScan_eq_find]
    cases ((w.listdir "/Library/Frameworks").find? (fun d =>
      (strLower (firstDotComponent d) == strLower name) &&
        w.isDir (pathJoin "/Library/Frameworks" d))) <;> rfl

/-- The branch structure shared by both environment-variable cases of
`check_pkgconfig`: the result of the try/which cascade for a fixed candidate
name is `False` or a string. -/
theorem check_pkgconfig_cascade_shape (w : World) (pb0 : String) :
    (match
      (match w.popen [pb0, "--version"] with
        | some (rc, _out) => if rc ≠ 0 then PkgbinVal.pyfalse else PkgbinVal.str pb0
        | none => PkgbinVal.pyfalse) with
      | PkgbinVal.str s =>
        if s = "" then PkgbinVal.str s
        else if w.isAbs s then PkgbinVal.str s
        else
          match w.which s with
          | some t => PkgbinVal.str t
          | none => PkgbinVal.str s
      | x => x) = PkgbinVal.pyfalse ∨
    (∃ s, (match
      (match w.popen [pb0, "--version"] with
        | some (rc, _out) => if rc ≠ 0 then PkgbinVal.pyfalse else PkgbinVal.str pb0
        | none => PkgbinVal.pyfalse) with
      | PkgbinVal.str s =>
        if s = "" then PkgbinVal.str s
        else if w.isAbs s then PkgbinVal.str s
        else
          match w.which s with
          | some t => PkgbinVal.str t
          | none => PkgbinVal.str s
      | x => x) = PkgbinVal.str s) := by
  cases hpo : w.popen [pb0, "--version"] with
  | none => exact Or.inl rfl
  | some pr =>
    obtain ⟨rcv, outv⟩ := pr
    dsimp only
    by_cases hrc : rcv ≠ 0
    · rw [if_pos hrc]
      exact Or.inl rfl
    · rw [if_neg hrc]
      dsimp only
      right
      split
      · exact ⟨_, rfl⟩
      · split
        · exact ⟨_, rfl⟩
        · split
          · exact ⟨_, rfl⟩
          · exact ⟨_, rfl⟩

/-- Lemma: `check_pkgconfig` returns `False` or a path string, never `None`. -/
theorem check_pkgconfig_shape (w : World) :
    check_pkgconfig w = PkgbinVal.pyfalse ∨ ∃ s, check_pkgconfig w = PkgbinVal.str s := by
  cases henv : w.pkgConfigEnvVar with
  | none =>
    have h := check_pkgconfig_cascade_shape w "pkg-config"
    unfold check_pkgconfig
    rw [henv]
    exact h
  | some v =>
    have h := check_pkgconfig_cascade_shape w (pyStrip v)
    unfold check_pkgconfig
    rw [henv]
    exact h

/-- Once the class-level cache is written it can never look unset again. -/
theorem check_pkgconfig_ne_pynone (w : World) : check_pkgconfig w ≠ PkgbinVal.pynone := by
  rcases check_pkgconfig_shape w with h | ⟨s, h⟩ <;> rw [h] <;> exact fun hc => nomatch hc

/-- Accumulated result of a sequence of `PkgConfigDependency` constructions
within one process: final class-level cache, total `check_pkgconfig`
invocations and total cache writes. -/
structure SeqOut where
  newCls : PkgbinVal
  calls : Nat
  writes : Nat

/-- Run a sequence of `PkgConfigDependency` constructions, threading the
class-level pkgbin cache and summing the probe statistics. -/
def runSeq (w : World) : PkgbinVal → List (String × Kwargs) → SeqOut
  | cls, [] => ⟨cls, 0, 0⟩
  | cls, (n, kw) :: rest =>
    let o := pkgConfigInit w cls n kw
    let s := runSeq w o.newCls rest
    ⟨s.newCls, o.checkCalls + s.calls, o.classWrites + s.writes⟩

/-- One native (non-cross) construction either leaves the cache untouched
with no probe, or — only from the unset state — probes once, writes once,
and leaves the cache set. -/
theorem pkgConfigInit_native_step (w : World) (cls : PkgbinVal) (n : String) (kw : Kwargs)
    (hcross : w.isCrossBuild = false) :
    ((pkgConfigInit w cls n kw).newCls = cls ∧ (pkgConfigInit w cls n kw).checkCalls = 0 ∧
      (pkgConfigInit w cls n kw).classWrites = 0) ∨
    (cls = PkgbinVal.pynone ∧ (pkgConfigInit w cls n kw).checkCalls = 1 ∧
      (pkgConfigInit w cls n kw).classWrites = 1 ∧
      (pkgConfigInit w cls n kw).newCls ≠ PkgbinVal.pynone) := by
  have hwc : pcWantCross w kw = false := by
    simp [pcWantCross, hcross]
  unfold pkgConfigInit
  cases hm : methodCheck kw.method ["pkgconfig"] with
  | error e => exact Or.inl ⟨rfl, rfl, rfl⟩
  | ok ms =>
    cases hs : kw.static with
    | other t => exact Or.inl ⟨rfl, rfl, rfl⟩
    | bool b =>
      rw [hwc]
      by_cases hcls : cls = PkgbinVal.pynone
      · subst hcls
        have hres : resolvePkgbin w PkgbinVal.pynone false kw.required.truthy =
            ⟨check_pkgconfig w, 1, 1, Except.ok (check_pkgconfig w)⟩ := by
          unfold resolvePkgbin
          simp
        rw [hres]
        dsimp only
        cases hb : (Except.ok (check_pkgconfig w) : Except PyExn PkgbinVal) with
        | error e => exact absurd hb (fun h => nomatch h)
        | ok pb =>
          refine Or.inr ⟨rfl, ?_⟩
          have hpb : pb = check_pkgconfig w := by
            injection hb with h
            exact h.symm
          subst hpb
          exact ⟨rfl, rfl, check_pkgconfig_ne_pynone w⟩
      · have hres : resolvePkgbin w cls false kw.required.truthy =
            ⟨cls, 0, 0, Except.ok cls⟩ := by
          unfold resolvePkgbin
          simp [hcls]
        rw [hres]
        exact Or.inl ⟨rfl, rfl, rfl⟩

/-- From a set cache, a native construction sequence never probes and never
writes, and the cache is unchanged. -/
theorem runSeq_cached (w : World) (hcross : w.isCrossBuild = false)
    (reqs : List (String × Kwargs)) :
    ∀ cls : PkgbinVal, cls ≠ PkgbinVal.pynone →
      runSeq w cls reqs = ⟨cls, 0, 0⟩ := by
  induction reqs with
  | nil => intro cls _; rfl
  | cons hd rest ih =>
    intro cls hcls
    obtain ⟨n, kw⟩ := hd
    rcases pkgConfigInit_native_step w cls n kw hcross with ⟨h1, h2, h3⟩ | ⟨h0, _⟩
    · show (⟨(runSeq w (pkgConfigInit w cls n kw).newCls rest).newCls,
        (pkgConfigInit w cls n kw).checkCalls + (runSeq w (pkgConfigInit w cls n kw).newCls rest).calls,
        (pkgConfigInit w cls n kw).classWrites + (runSeq w (pkgConfigInit w cls n kw).newCls rest).writes⟩ : SeqOut) = ⟨cls, 0, 0⟩
      rw [h1, h2, h3, ih cls hcls]
      rfl
    · exact absurd h0 hcls

/-- Claim C7: across any sequence of native (non-cross) `PkgConfigDependency`
constructions, `check_pkgconfig` runs at most once, the class-level cache is
written at most once, and once the cache is set every later construction
reuses the cached value without probing. -/
theorem native_pkgbin_search_memoized (w : World) (hcross : w.isCrossBuild = false)
    (reqs : List (String × Kwargs)) :
    (runSeq w PkgbinVal.pynone reqs).calls ≤ 1 ∧
    (runSeq w PkgbinVal.pynone reqs).writes ≤ 1 ∧
    (∀ (cls : PkgbinVal) (req : Bool), cls ≠ PkgbinVal.pynone →
      resolvePkgbin w cls false req = ⟨cls, 0, 0, Except.ok cls⟩) := by
  have hreuse : ∀ (cls : PkgbinVal) (req : Bool), cls ≠ PkgbinVal.pynone →
      resolvePkgbin w cls false req = ⟨cls, 0, 0, Except.ok cls⟩ := by
    intro cls req hcls
    unfold resolvePkgbin
    simp [hcls]
  induction reqs with
  | nil => exact ⟨Nat.zero_le 1, Nat.zero_le 1, hreuse⟩
  | cons hd rest ih =>
    obtain ⟨n, kw⟩ := hd
    rcases pkgConfigInit_native_step w PkgbinVal.pynone n kw hcross with ⟨h1, h2, h3⟩ | ⟨_, h2, h3, h4⟩
    · refine ⟨?_, ?_, hreuse⟩
      · show (pkgConfigInit w PkgbinVal.pynone n kw).checkCalls +
          (runSeq w (pkgConfigInit w PkgbinVal.pynone n kw).newCls rest).calls ≤ 1
        rw [h1, h2]
        simpa using ih.1
      · show (pkgConfigInit w PkgbinVal.pynone n kw).classWrites +
          (runSeq w (pkgConfigInit w PkgbinVal.pynone n kw).newCls rest).writes ≤ 1
        rw [h1, h3]
        simpa using ih.2.1
    · refine ⟨?_, ?_, hreuse⟩
      · show (pkgConfigInit w PkgbinVal.pynone n kw).checkCalls +
          (runSeq w (pkgConfigInit w PkgbinVal.pynone n kw).newCls rest).calls ≤ 1
        rw [h2, runSeq_cached w hcross rest _ h4]
        simp
      · show (pkgConfigInit w PkgbinVal.pynone n kw).classWrites +
          (runSeq w (pkgConfigInit w PkgbinVal.pynone n kw).newCls rest).writes ≤ 1
        rw [h3, runSeq_cached w hcross rest _ h4]
        simp

/-- A concrete world shared by several witnesses: a native build where
pkg-config is absent (every probe exits 1). -/
def worldBase : World :=
  { isOsx := false, isCrossBuild := false, crossPkgconfig := none,
    programSearch := fun _ => [none], pkgConfigEnvVar := none,
    popen := fun _ => some (1, ""), which := fun _ => none,
    isAbs := fun _ => false, pathExists := fun _ => false,
    laFileLines := fun _ => none, listdir := fun _ => [],
    isDir := fun _ => false,
    versionCompareMany := fun _ _ => (true, [], []) }

/-- Witness for C7: two sequential resolutions in a concrete native world. -/
theorem native_pkgbin_search_memoized_witness :
    worldBase.isCrossBuild = false ∧
    ((runSeq worldBase PkgbinVal.pynone [("foo", {}), ("bar", {})]).calls ≤ 1 ∧
      (runSeq worldBase PkgbinVal.pynone [("foo", {}), ("bar", {})]).writes ≤ 1 ∧
      (∀ (cls : PkgbinVal) (req : Bool), cls ≠ PkgbinVal.pynone →
        resolvePkgbin worldBase cls false req = ⟨cls, 0, 0, Except.ok cls⟩)) :=
  ⟨rfl, native_pkgbin_search_memoized worldBase rfl [("foo", {}), ("bar", {})]⟩

/-- With `required` falsy, pkgbin resolution never raises. -/
theorem resolvePkgbin_notreq_ok (w : World) (cls : PkgbinVal) (wc : Bool) :
    ∃ pb, (resolvePkgbin w cls wc false).result = Except.ok pb := by
  unfold resolvePkgbin
  split
  · split
    · exact ⟨_, rfl⟩
    · split
      · exact ⟨_, rfl⟩
      · exact ⟨_, rfl⟩
  · split
    · exact ⟨_, rfl⟩
    · exact ⟨_, rfl⟩

/-- The only exception pkgbin resolution can raise is a
`DependencyException` (the missing-cross-file error). -/
theorem resolvePkgbin_error_dep (w : World) (cls : PkgbinVal) (wc req : Bool) (e : PyExn)
    (h : (resolvePkgbin w cls wc req).result = Except.error e) :
    ∃ msg, e = PyExn.dependencyException msg := by
  unfold resolvePkgbin at h
  split at h
  · split at h
    · split at h
      · exact ⟨_, by injection h with h'; exact h'.symm⟩
      · simp at h
    · split at h
      · simp at h
      · simp at h
  · split at h
    · simp at h
    · simp at h

/-- The probe for `name` fails cleanly: whatever pkgbin the resolution
settles on (for either value of `required`), either it is falsy (no
pkg-config binary) or the `--modversion` query launches and exits
nonzero. -/
def pkgCleanNotFound (w : World) (cls : PkgbinVal) (name : String) (wantCross : Bool) : Prop :=
  ∀ (req : Bool) (pb : PkgbinVal), (resolvePkgbin w cls wantCross req).result = Except.ok pb →
    pb.truthy = false ∨
    ∃ rc out, w.popen [pb.getStr, "--modversion", name] = some (rc, out) ∧ rc ≠ 0

/-- Under a clean probe failure, the post-resolution constructor body
returns a not-found dependency when `required` is false and raises a
`DependencyException` when `required` is true. -/
theorem pkgConfigBody_clean (w : World) (name : String) (kw : Kwargs) (staticB wantCross : Bool)
    (pb : PkgbinVal)
    (hclean : pb.truthy = false ∨
      ∃ rc out, w.popen [pb.getStr, "--modversion", name] = some (rc, out) ∧ rc ≠ 0) :
    (∃ dep, pkgConfigBody w name kw staticB false wantCross pb = Except.ok dep ∧
      dep.is_found = false) ∧
    (∃ msg, pkgConfigBody w name kw staticB true wantCross pb =
      Except.error (PyExn.dependencyException msg)) := by
  by_cases htr : pb.truthy = false
  · constructor
    · refine ⟨{ name := name, is_found := false, pkgbin := pb }, ?_, rfl⟩
      simp [pkgConfigBody, htr]
    · refine ⟨"Pkg-config not found.", ?_⟩
      simp [pkgConfigBody, htr]
  · have htr' : pb.truthy = true := by
      revert htr
      cases pb.truthy <;> simp
    rcases hclean with hf | ⟨rc, out, hpo, hrc⟩
    · exact absurd hf htr
    · constructor
      · refine ⟨{ name := name, is_found := false, pkgbin := pb, modversion := pyStrip out },
          ?_, rfl⟩
        simp [pkgConfigBody, htr', hpo, hrc]
      · refine ⟨(if wantCross then "Cross" else "Native") ++ " dependency '" ++ name ++
          "' not found", ?_⟩
        simp [pkgConfigBody, htr', hpo, hrc]

/-- Under a clean probe failure and `required=false`, the whole
`PkgConfigDependency.__init__` run returns a not-found dependency without
raising. -/
theorem pkgConfigInit_clean_notfound (w : World) (cls : PkgbinVal) (name : String) (kw : Kwargs)
    (hmeth : kw.method = "auto") (hstat : ∃ b, kw.static = PyBoolish.bool b)
    (hreq : kw.required = PyBoolish.bool false)
    (hprobe : pkgCleanNotFound w cls name (pcWantCross w kw)) :
    ∃ dep, (pkgConfigInit w cls name kw).result = Except.ok dep ∧ dep.is_found = false := by
  obtain ⟨b, hb⟩ := hstat
  obtain ⟨pb, hpb⟩ := resolvePkgbin_notreq_ok w cls (pcWantCross w kw)
  obtain ⟨dep, hdep, hnf⟩ :=
    (pkgConfigBody_clean w name kw b (pcWantCross w kw) pb (hprobe false pb hpb)).1
  refine ⟨dep, ?_, hnf⟩
  unfold pkgConfigInit
  rw [hmeth, hb, hreq]
  dsimp only [PyBoolish.truthy]
  rw [hpb]
  exact hdep

/-- Under a clean probe failure and `required=true`, the whole
`PkgConfigDependency.__init__` run raises a `DependencyException`. -/
theorem pkgConfigInit_clean_required_raises (w : World) (cls : PkgbinVal) (name : String)
    (kw : Kwargs)
    (hmeth : kw.method = "auto") (hstat : ∃ b, kw.static = PyBoolish.bool b)
    (hreq : kw.required = PyBoolish.bool true)
    (hprobe : pkgCleanNotFound w cls name (pcWantCross w kw)) :
    ∃ msg, (pkgConfigInit w cls name kw).result = Except.error (PyExn.dependencyException msg) := by
  obtain ⟨b, hb⟩ := hstat
  cases hres : (resolvePkgbin w cls (pcWantCross w kw) true).result with
  | error e =>
    obtain ⟨msg, hmsg⟩ := resolvePkgbin_error_dep w cls (pcWantCross w kw) true e hres
    refine ⟨msg, ?_⟩
    unfold pkgConfigInit
    rw [hmeth, hb, hreq]
    dsimp only [PyBoolish.truthy]
    rw [hres, hmsg]
    rfl
  | ok pb =>
    obtain ⟨msg, hmsg⟩ :=
      (pkgConfigBody_clean w name kw b (pcWantCross w kw) pb (hprobe true pb hres)).2
    refine ⟨msg, ?_⟩
    unfold pkgConfigInit
    rw [hmeth, hb, hreq]
    dsimp only [PyBoolish.truthy]
    rw [hres]
    exact hmsg

/-- With `required=false`, no captured exception and a constructed not-found
pkg-config dependency, the generic fallback returns a not-found result
without raising (on OSX the framework scan having also failed). -/
theorem fallbackAfterPkg_notreq (w : World) (cls : PkgbinVal) (name : String) (kw : Kwargs)
    (pkgdep : PCDep)
    (hmeth : kw.method = "auto")
    (hfw : w.isOsx = true → frameworkDetect w name none = none)
    (hnf : pkgdep.is_found = false) :
    ∃ d, fallbackAfterPkg w cls name kw false none (some pkgdep) = (cls, Except.ok d) ∧
      d.depFound = false := by
  unfold fallbackAfterPkg
  by_cases hosx : w.isOsx = true
  · rw [hosx]
    have hef : extraFrameworkInit w name false none kw = Except.ok ⟨"", none⟩ := by
      unfold extraFrameworkInit
      rw [hmeth, show methodCheck "auto" ["auto"] = Except.ok ["auto"] from rfl, hfw hosx]
    rw [hef]
    exact ⟨DepResult.framework ⟨"", none⟩, rfl, rfl⟩
  · have hosx' : w.isOsx = false := by
      revert hosx
      cases w.isOsx <;> simp
    rw [hosx']
    refine ⟨DepResult.pkgconfig pkgdep, rfl, ?_⟩
    show pkgdep.is_found = false
    exact hnf

/-- Claim C1: a request with `required=false` for a name that is not a
registered kind and for which the pkg-config probe fails cleanly (and, on
OSX, the framework scan also finds nothing) returns a dependency whose
`found()` is false, raising no exception. -/
theorem find_optional_missing_returns_notfound (w : World)
    (packages : String → Option (World → Kwargs → Except PyExn Bool))
    (cls : PkgbinVal) (name : String) (kw : Kwargs)
    (hreg : packages (strLower name) = none)
    (hmeth : kw.method = "auto")
    (hreq : kw.required = PyBoolish.bool false)
    (hstat : ∃ b, kw.static = PyBoolish.bool b)
    (hprobe : pkgCleanNotFound w cls name (pcWantCross w kw))
    (hfw : w.isOsx = true → frameworkDetect w name none = none) :
    ∃ (cls' : PkgbinVal) (d : DepResult),
      find_external_dependency w packages cls name kw = (cls', Except.ok d) ∧
      d.depFound = false := by
  obtain ⟨dep, hdep, hnf⟩ := pkgConfigInit_clean_notfound w cls name kw hmeth hstat hreq hprobe
  obtain ⟨d, hfb, hdf⟩ :=
    fallbackAfterPkg_notreq w (pkgConfigInit w cls name kw).newCls name kw dep hmeth hfw hnf
  refine ⟨(pkgConfigInit w cls name kw).newCls, d, ?_, hdf⟩
  unfold find_external_dependency
  rw [hreq, hreg]
  dsimp only
  rw [hdep]
  dsimp only
  rw [hnf]
  exact hfb

/-- Claim C2: a request with `required=true` for a name no probe resolves
raises a `DependencyException`, whether the name is a registered kind (whose
construction reports not-found) or falls through to generic resolution. -/
theorem find_required_missing_raises (w : World)
    (packages : String → Option (World → Kwargs → Except PyExn Bool))
    (cls : PkgbinVal) (name : String) (kw : Kwargs)
    (hmeth : kw.method = "auto")
    (hreq : kw.required = PyBoolish.bool true)
    (hstat : ∃ b, kw.static = PyBoolish.bool b)
    (hcase : (∃ ctor, packages (strLower name) = some ctor ∧ ctor w kw = Except.ok false) ∨
      (packages (strLower name) = none ∧ pkgCleanNotFound w cls name (pcWantCross w kw) ∧
        (w.isOsx = true → frameworkDetect w name none = none))) :
    ∃ (cls' : PkgbinVal) (msg : String),
      find_external_dependency w packages cls name kw =
        (cls', Except.error (PyExn.dependencyException msg)) := by
  rcases hcase with ⟨ctor, hlook, hctor⟩ | ⟨hreg, hprobe, hfw⟩
  · refine ⟨cls, "Dependency \"" ++ name ++ "\" not found", ?_⟩
    unfold find_external_dependency
    rw [hreq, hlook]
    dsimp only
    rw [hctor]
    rfl
  · obtain ⟨msg, hmsg⟩ := pkgConfigInit_clean_required_raises w cls name kw hmeth hstat hreq hprobe
    by_cases hosx : w.isOsx = true
    · refine ⟨(pkgConfigInit w cls name kw).newCls,
        "Dependency '" ++ name ++ "' not found, tried Extra Frameworks and Pkg-Config:\n\n" ++
          pyExnStr (some (PyExn.dependencyException msg)), ?_⟩
      unfold find_external_dependency
      rw [hreq, hreg]
      dsimp only
      rw [hmsg]
      dsimp only
      unfold fallbackAfterPkg
      rw [hosx]
      have hef : extraFrameworkInit w name true none kw = Except.ok ⟨"", none⟩ := by
        unfold extraFrameworkInit
        rw [hmeth, show methodCheck "auto" ["auto"] = Except.ok ["auto"] from rfl, hfw hosx]
      rw [hef]
      rfl
    · have hosx' : w.isOsx = false := by
        revert hosx
        cases w.isOsx <;> simp
      refine ⟨(pkgConfigInit w cls name kw).newCls, msg, ?_⟩
      unfold find_external_dependency
      rw [hreq, hreg]
      dsimp only
      rw [hmsg]
      dsimp only
      unfold fallbackAfterPkg
      rw [hosx']
      rfl

/-- In `worldBase` the pkg-config probe fails cleanly: the `--version` check
exits 1, so the resolved pkgbin is `False`. -/
theorem worldBase_clean_notfound (name : String) :
    pkgCleanNotFound worldBase PkgbinVal.pynone name false := by
  intro req pb h
  left
  have e : (resolvePkgbin worldBase PkgbinVal.pynone false req).result =
      Except.ok PkgbinVal.pyfalse := rfl
  rw [e] at h
  injection h with h'
  rw [← h']
  rfl

/-- Witness for C1: a concrete optional request for an unknown name in a
world with no pkg-config. -/
theorem find_optional_missing_returns_notfound_witness :
    ((fun _ : String => (none : Option (World → Kwargs → Except PyExn Bool)))
        (strLower "nosuchdep") = none) ∧
    (∃ (cls' : PkgbinVal) (d : DepResult),
      find_external_dependency worldBase (fun _ => none) PkgbinVal.pynone "nosuchdep"
          { required := PyBoolish.bool false } = (cls', Except.ok d) ∧
      d.depFound = false) :=
  ⟨rfl,
    find_optional_missing_returns_notfound worldBase (fun _ => none) PkgbinVal.pynone
      "nosuchdep" { required := PyBoolish.bool false } rfl rfl rfl ⟨false, rfl⟩
      (worldBase_clean_notfound "nosuchdep") (fun h => nomatch h)⟩

/-- Witness for C2: the same world and name with `required=true`. -/
theorem find_required_missing_raises_witness :
    ((fun _ : String => (none : Option (World → Kwargs → Except PyExn Bool)))
        (strLower "nosuchdep") = none) ∧
    (∃ (cls' : PkgbinVal) (msg : String),
      find_external_dependency worldBase (fun _ => none) PkgbinVal.pynone "nosuchdep"
          { required := PyBoolish.bool true } =
        (cls', Except.error (PyExn.dependencyException msg))) :=
  ⟨rfl,
    find_required_missing_raises worldBase (fun _ => none) PkgbinVal.pynone "nosuchdep"
      { required := PyBoolish.bool true } rfl rfl ⟨false, rfl⟩
      (Or.inr ⟨rfl, worldBase_clean_notfound "nosuchdep", fun h => nomatch h⟩)⟩

/-- A concrete non-OSX world where pkg-config is present, the module version
query succeeds, and the compile-flags query exits nonzero — so the
`PkgConfigDependency` constructor raises. -/
def popenC3 (args : List String) : Option (Int × String) :=
  if args = ["pkg-config", "--version"] then some (0, "0.29")
  else if args = ["pkg-config", "--modversion", "zlib"] then some (0, "1.2")
  else some (1, "broken")

/-- The world itself, differing from `worldBase` only in `popen`. -/
def worldC3 : World :=
  { worldBase with popen := popenC3 }

/-- Counterexample to claim C3 as stated: on a non-OSX host, the exception
captured from the pkg-config constructor is re-raised by
`find_external_dependency` even though `required=false` — the call does not
return a not-found result. -/
theorem generic_optional_exception_reraised_counterexample :
    find_external_dependency worldC3 (fun _ => none) PkgbinVal.pynone "zlib"
        { required := PyBoolish.bool false } =
      (PkgbinVal.str "pkg-config",
        Except.error (PyExn.dependencyException "Could not generate cargs for zlib:\n\nbroken")) :=
  rfl

/-- Claim C3 amended: in generic resolution with `required=false`, an
exception raised by the pkg-config constructor is captured, and then
re-raised on non-OSX hosts, while on OSX hosts the framework fallback's
result is returned without raising; the captured text is surfaced (in the
combined message) only when `required=true` on OSX. -/
theorem generic_exception_capture_platform_split (w : World)
    (packages : String → Option (World → Kwargs → Except PyExn Bool))
    (cls : PkgbinVal) (name : String) (kw : Kwargs) (e : PyExn)
    (hreg : packages (strLower name) = none)
    (hmeth : kw.method = "auto")
    (hreq : kw.required = PyBoolish.bool false)
    (hexc : (pkgConfigInit w cls name kw).result = Except.error e) :
    (w.isOsx = false →
      find_external_dependency w packages cls name kw =
        ((pkgConfigInit w cls name kw).newCls, Except.error e)) ∧
    (w.isOsx = true → ∃ fw : EFDep,
      find_external_dependency w packages cls name kw =
        ((pkgConfigInit w cls name kw).newCls, Except.ok (DepResult.framework fw))) := by
  constructor
  · intro hosx
    unfold find_external_dependency
    rw [hreq, hreg]
    dsimp only
    rw [hexc]
    dsimp only
    unfold fallbackAfterPkg
    rw [hosx]
    rfl
  · intro hosx
    unfold find_external_dependency
    rw [hreq, hreg]
    dsimp only
    rw [hexc]
    dsimp only
    unfold fallbackAfterPkg
    rw [hosx]
    cases hdet : frameworkDetect w name none with
    | none =>
      have hef : extraFrameworkInit w name false none kw = Except.ok ⟨"", none⟩ := by
        unfold extraFrameworkInit
        rw [hmeth, show methodCheck "auto" ["auto"] = Except.ok ["auto"] from rfl, hdet]
      rw [hef]
      exact ⟨⟨"", none⟩, rfl⟩
    | some pr =>
      obtain ⟨p, d⟩ := pr
      have hef : extraFrameworkInit w name false none kw = Except.ok ⟨p, some d⟩ := by
        unfold extraFrameworkInit
        rw [hmeth, show methodCheck "auto" ["auto"] = Except.ok ["auto"] from rfl, hdet]
      rw [hef]
      exact ⟨⟨p, some d⟩, rfl⟩

/-- Witness for the amended C3 at the concrete non-OSX world. -/
theorem generic_exception_capture_platform_split_witness :
    ((pkgConfigInit worldC3 PkgbinVal.pynone "zlib" { required := PyBoolish.bool false }).result =
      Except.error (PyExn.dependencyException "Could not generate cargs for zlib:\n\nbroken")) ∧
    ((worldC3.isOsx = false →
      find_external_dependency worldC3 (fun _ => none) PkgbinVal.pynone "zlib"
          { required := PyBoolish.bool false } =
        ((pkgConfigInit worldC3 PkgbinVal.pynone "zlib"
            { required := PyBoolish.bool false }).newCls,
          Except.error (PyExn.dependencyException "Could not generate cargs for zlib:\n\nbroken"))) ∧
    (worldC3.isOsx = true → ∃ fw : EFDep,
      find_external_dependency worldC3 (fun _ => none) PkgbinVal.pynone "zlib"
          { required := PyBoolish.bool false } =
        ((pkgConfigInit worldC3 PkgbinVal.pynone "zlib"
            { required := PyBoolish.bool false }).newCls,
          Except.ok (DepResult.framework fw)))) :=
  ⟨rfl,
    generic_exception_capture_platform_split worldC3 (fun _ => none) PkgbinVal.pynone "zlib"
      { required := PyBoolish.bool false }
      (PyExn.dependencyException "Could not generate cargs for zlib:\n\nbroken")
      rfl rfl rfl rfl⟩

/-- Claim C4: once the module-version query has succeeded (and the version
constraints, if any, are satisfied), a nonzero exit from either the
compile-flags query or the link-flags query makes the construction raise a
`DependencyException` regardless of whether the request was required or
optional. -/
theorem pkgconfig_flag_query_failure_always_fatal (w : World) (name : String) (kw : Kwargs)
    (staticB wantCross : Bool) (pb : PkgbinVal)
    (htr : pb.truthy = true)
    (hmv : ∃ outv, w.popen [pb.getStr, "--modversion", name] = some (0, outv) ∧
      versionGate w (pyStrip outv) kw.version = Except.ok VersionOutcome.proceed)
    (hfail : (∃ rcC outC, w.popen [pb.getStr, "--cflags", name] = some (rcC, outC) ∧ rcC ≠ 0) ∨
      ((∃ outC, w.popen [pb.getStr, "--cflags", name] = some (0, outC)) ∧
        (∃ rcL outL, w.popen (pb.getStr :: ([name, "--libs"] ++
          (if staticB then ["--static"] else []))) = some (rcL, outL) ∧ rcL ≠ 0))) :
    ∀ req : Bool, ∃ msg, pkgConfigBody w name kw staticB req wantCross pb =
      Except.error (PyExn.dependencyException msg) := by
  intro req
  obtain ⟨outv, hpo, hvg⟩ := hmv
  unfold pkgConfigBody
  rw [htr]
  rw [if_neg (by decide : ¬(true = false))]
  dsimp only
  rw [hpo]
  dsimp only
  rw [if_neg (by decide : ¬((0 : Int) ≠ 0))]
  rw [hvg]
  dsimp only
  rcases hfail with ⟨rcC, outC, hc, hrcC⟩ | ⟨⟨outC, hc⟩, rcL, outL, hl, hrcL⟩
  · refine ⟨"Could not generate cargs for " ++ name ++ ":\n\n" ++ pyStrip outC, ?_⟩
    unfold set_cargs
    rw [hc]
    simp [hrcC]
  · refine ⟨"Could not generate libs for " ++ name ++ ":\n\n" ++ pyStrip outL, ?_⟩
    have hca : set_cargs w pb.getStr name = Except.ok (pySplit (pyStrip outC)) := by
      unfold set_cargs
      rw [hc]
      simp
    rw [hca]
    dsimp only
    unfold set_libs
    dsimp only
    rw [hl]
    simp [hrcL]

/-- Witness for C4 at the concrete world where the compile-flags query exits
1 (for both values of `required`). -/
theorem pkgconfig_flag_query_failure_always_fatal_witness :
    ((PkgbinVal.str "pkg-config").truthy = true ∧
      worldC3.popen ["pkg-config", "--modversion", "zlib"] = some (0, "1.2") ∧
      worldC3.popen ["pkg-config", "--cflags", "zlib"] = some (1, "broken")) ∧
    (∀ req : Bool, ∃ msg,
      pkgConfigBody worldC3 "zlib" {} false req false (PkgbinVal.str "pkg-config") =
        Except.error (PyExn.dependencyException msg)) :=
  ⟨⟨rfl, rfl, rfl⟩,
    pkgconfig_flag_query_failure_always_fatal worldC3 "zlib" {} false false
      (PkgbinVal.str "pkg-config") rfl ⟨"1.2", rfl, rfl⟩ (Or.inl ⟨1, "broken", rfl, by decide⟩)⟩
